import Mathlib

/-!
Shallow embedding of the `podcast-system` repository.

The repository implements an asynchronous dispatch/poll protocol between an
Android client (`src/android/GitHubActionsClient.java`) and stateless worker
scripts (`src/scripts/subscribe.js`, `src/scripts/update-feeds.js`, the search
worker and the download worker), coordinating through a durable key/blob store
(`data/...` JSON files served over HTTP).

External collaborators (the HTTP fetch, the RSS regex extraction, Node's
`crypto` md5, the file system) are modelled as parameters: handler logic is
embedded as pure functions from those collaborator outcomes to the values and
store writes the JavaScript produces.  File-system primitives are assumed to
succeed, as the spec treats the store as durable.
-/

/-- JavaScript `a || b` on strings: the empty string is falsy. -/
def jsOrS (a b : String) : String := if a = "" then b else a

/-- JavaScript `a || b` where `a` is a possibly-absent string field
(`undefined` and `""` are both falsy). -/
def jsOr (a : Option String) (b : String) : String :=
  match a with
  | some s => if s = "" then b else s
  | none => b

/-! ### Feed items and stored episodes -/

/-- A freshly parsed RSS item, as produced by `parseRSS`: `parseRSS` only
keeps items that have an enclosure `url`; `guid` is optional.  `title`
stands in for the remaining content fields (type, size, pubDate, ...). -/
structure Item where
  guid : Option String
  url : String
  title : String
  deriving DecidableEq

/-- Identity key of a fetched item: `ep.guid || ep.url`
(`update-feeds.js` line 108). -/
def Item.key (it : Item) : String := jsOr it.guid it.url

/-- A stored episode record, an entry of `data/episodes/<id>/list.json`.
`isNew = none` models the `isNew` field being absent from the JSON. -/
structure Episode where
  guid : Option String
  url : String
  title : String
  id : String
  podcastId : String
  isNew : Option Bool
  deriving DecidableEq

/-- Identity key of a stored episode: `ep.guid || ep.url`
(`update-feeds.js` line 103). -/
def Episode.key (e : Episode) : String := jsOr e.guid e.url

/-! ### The feed-sync merge (`update-feeds.js`, `updateFeed`, lines 97-136) -/

/-- `existingGuids = new Set(existingEpisodes.map(ep => ep.guid || ep.url))`. -/
def existingKeys (prior : List Episode) : List String := prior.map Episode.key

/-- `episodes.filter(ep => !existingGuids.has(ep.guid || ep.url))`:
membership in the set of prior identity keys; the set is built once and not
extended while filtering. -/
def newItems (fetched : List Item) (prior : List Episode) : List Item :=
  fetched.filter (fun it => !((existingKeys prior).contains it.key))

/-- The synthesized id `` `new-${Date.now()}-${i}` `` for a new item without a
guid; `now` is the run's `Date.now()` rendered as a string, `i` the index of
the item among the new items. -/
def placeholderId (now : String) (i : Nat) : String :=
  "new-" ++ now ++ "-" ++ Nat.repr i

/-- `{...ep, id: ep.guid || placeholder, podcastId, isNew: true}`
(`update-feeds.js` lines 117-122). -/
def tagNewEpisode (pid now : String) (i : Nat) (it : Item) : Episode :=
  { guid := it.guid, url := it.url, title := it.title,
    id := jsOr it.guid (placeholderId now i),
    podcastId := pid, isNew := some true }

/-- The new-items half of the merged list, in source order with indices. -/
def tagNew (pid now : String) (its : List Item) : List Episode :=
  its.enum.map (fun p => tagNewEpisode pid now p.1 p.2)

/-- `{...ep, isNew: false}` applied to each re-emitted prior episode
(`update-feeds.js` line 123). -/
def retagOld (e : Episode) : Episode := { e with isNew := some false }

/-- `newEpisodes.length`, reported by `updateFeed` as `newEpisodes`. -/
def newCount (fetched : List Item) (prior : List Episode) : Nat :=
  (newItems fetched prior).length

/-- The episode list stored after a refresh: when there are new episodes the
file is rewritten as `[...newEpisodes tagged, ...existing retagged]`
(lines 114-135); when there are none the file is left untouched, so the
stored list is the prior list unchanged. -/
def mergedEpisodeList (pid now : String) (fetched : List Item)
    (prior : List Episode) : List Episode :=
  let nw := newItems fetched prior
  if nw.length > 0 then tagNew pid now nw ++ prior.map retagOld else prior

/-- An episode with its transient `isNew` annotation erased, used to state
that a refresh re-emits prior episodes unchanged apart from `isNew`. -/
def eraseIsNew (e : Episode) : Episode := { e with isNew := none }

/-! ### The first sync by the subscribe handler (`subscribe.js`, lines 155-159) -/

/-- `episodes.map((ep, index) => ({...ep, id: ep.guid || \x7bep-indexed
placeholder\x7d, podcastId}))` — note that no `isNew` field is written. -/
def subscribeEpisodes (pid : String) (fetched : List Item) : List Episode :=
  fetched.enum.map (fun p =>
    { guid := p.2.guid, url := p.2.url, title := p.2.title,
      id := jsOr p.2.guid ("ep-" ++ Nat.repr p.1),
      podcastId := pid, isNew := none })

/-! ### Boolean key-set helpers (decidable formulations of set facts) -/

/-- Every key of `a` occurs in `b`. -/
def keysSubset (a b : List String) : Bool := a.all (fun k => b.contains k)

/-- `a` and `b` contain the same keys (as sets). -/
def sameKeySet (a b : List String) : Bool := keysSubset a b && keysSubset b a

/-! ### The client-side poller
(`GitHubActionsClient.java`, `pollForResults` / `scheduleRetry`, lines 150-190)

One read of the result store at `data/requests/<requestId>.json` ends in one
of four ways, matching the okhttp callback: the process-level `onFailure`
(an `IOException`), a successful HTTP response carrying the record, HTTP 404,
or any other HTTP status. -/

inductive ReadOutcome where
  | present (body : String)
  | notFound
  | netFailure
  | httpError (status : Nat)
  deriving DecidableEq

/-- Terminal outcome of a poll: the record's body, the timeout error, or the
`"HTTP <code>"` error reported for a non-404 error status. -/
inductive PollResult where
  | success (body : String)
  | timeout
  | httpError (status : Nat)
  deriving DecidableEq

/-- The poll loop, fuelled by the number of attempts still allowed.  The Java
guard is `if (attempt > 60) -> timeout` with the counter starting at 0 and
incremented by `scheduleRetry`, so `remaining = 61 - attempt`: `remaining = 0`
is exactly `attempt > 60`.  `store attempt` is the outcome of the read made at
counter value `attempt`.  The second component counts reads performed. -/
def pollGo (store : Nat → ReadOutcome) : Nat → Nat → PollResult × Nat
  | 0, _ => (.timeout, 0)
  | fuel + 1, attempt =>
    match store attempt with
    | .present body => (.success body, 1)
    | .httpError status => (.httpError status, 1)
    | .notFound =>
      let r := pollGo store fuel (attempt + 1)
      (r.1, r.2 + 1)
    | .netFailure =>
      let r := pollGo store fuel (attempt + 1)
      (r.1, r.2 + 1)

/-- `pollForResults(requestId, callback, attempt)`, counting reads. -/
def pollForResults (store : Nat → ReadOutcome) (attempt : Nat) :
    PollResult × Nat :=
  pollGo store (61 - attempt) attempt

/-! ### Decimal rendering facts, for the uniqueness of synthesized ids -/

/-- Decode a decimal digit string back to a number (left inverse used to show
the run-unique placeholder suffixes are injective in their index). -/
def decodeDec (cs : List Char) : Nat :=
  cs.foldl (fun a c => 10 * a + (c.toNat - 48)) 0

/-! ### The subscription registry (`subscribe.js`) -/

/-- Channel metadata extracted by `parseRSS`; each field is absent when its
regex does not match. -/
structure Channel where
  title : Option String
  author : Option String
  imageUrl : Option String
  description : Option String
  deriving DecidableEq

/-- A Subscription record, an entry of `data/subscriptions.json`
(`subscribe.js` lines 126-136). -/
structure Subscription where
  id : String
  title : String
  author : String
  feedUrl : String
  imageUrl : String
  description : String
  episodeCount : Nat
  lastUpdated : String
  subscribedAt : String
  deriving DecidableEq

/-- `crypto.createHash('md5').update(feedUrl).digest('hex').substring(0, 12)`
(`subscribe.js` lines 96-99).  The md5 hex digest itself is Node's `crypto`
collaborator, passed in as `md5hex`; the truncation to the first 12
characters is the repository's. -/
def generatePodcastId (md5hex : String → String) (feedUrl : String) : String :=
  String.mk ((md5hex feedUrl).data.take 12)

/-- Lookup in a JSON object modelled as an association list in key order. -/
def getRecord {α : Type} (m : List (String × α)) (k : String) : Option α :=
  match m with
  | [] => none
  | p :: t => if p.1 = k then some p.2 else getRecord t k

/-- JavaScript property assignment `obj[k] = v`: replaces the value in place
when the key exists, otherwise appends the key. -/
def putRecord {α : Type} (m : List (String × α)) (k : String) (v : α) :
    List (String × α) :=
  if (m.map Prod.fst).contains k then
    m.map (fun p => if p.1 = k then (k, v) else p)
  else m ++ [(k, v)]

/-- JavaScript `delete obj[k]`. -/
def delRecord {α : Type} (m : List (String × α)) (k : String) :
    List (String × α) :=
  m.filter (fun p => !(p.1 == k))

/-- The `subscribedAt` value written by `subscribe()`:
`subscriptions[podcastId]?.subscribedAt || new Date().toISOString()`
(`subscribe.js` line 135). -/
def subscribedAtOf (prior : Option Subscription) (now : String) : String :=
  match prior with
  | some p => jsOrS p.subscribedAt now
  | none => now

/-- The Subscription record built by `subscribe()` (lines 126-136).  `now`
stands for this run's `new Date().toISOString()`. -/
def buildSubscription (pid titleEnv feedUrl : String) (channel : Channel)
    (episodes : List Item) (now : String) (prior : Option Subscription) :
    Subscription :=
  { id := pid,
    title := jsOrS titleEnv (jsOr channel.title "Unknown"),
    author := jsOr channel.author "",
    feedUrl := feedUrl,
    imageUrl := jsOr channel.imageUrl "",
    description := jsOr channel.description "",
    episodeCount := episodes.length,
    lastUpdated := now,
    subscribedAt := subscribedAtOf prior now }

/-- The effect of one successful `subscribe()` run on `data/subscriptions.json`,
together with the podcast id it used:
`podcastId = PODCAST_ID || generatePodcastId(FEED_URL)` (line 106). -/
def subscribeRegistry (md5hex : String → String)
    (pidEnv feedUrl titleEnv : String) (channel : Channel)
    (episodes : List Item) (now : String)
    (subs : List (String × Subscription)) :
    List (String × Subscription) × String :=
  let pid := jsOrS pidEnv (generatePodcastId md5hex feedUrl)
  (putRecord subs pid
    (buildSubscription pid titleEnv feedUrl channel episodes now
      (getRecord subs pid)), pid)

/-! ### The durable data layout, for the unsubscribe frame property -/

/-- A FeedSnapshot, the contents of `data/feeds/<podcastId>.json`. -/
structure FeedSnapshot where
  podcastId : String
  channel : Channel
  episodeCount : Nat
  lastUpdated : String
  deriving DecidableEq

/-- The durable stores an unsubscribe can see: the subscription registry,
the per-podcast feed snapshots and the per-podcast episode lists. -/
structure DataState where
  subscriptions : List (String × Subscription)
  feeds : List (String × FeedSnapshot)
  episodes : List (String × List Episode)
  deriving DecidableEq

/-- `unsubscribe()` (`subscribe.js` lines 177-201): recomputes the podcast id
the same way as `subscribe()`, deletes that key from `subscriptions.json`
and rewrites that file; no other file is touched. -/
def unsubscribeRun (md5hex : String → String) (pidEnv feedUrl : String)
    (st : DataState) : DataState × String :=
  let pid := jsOrS pidEnv (generatePodcastId md5hex feedUrl)
  ({ st with subscriptions := delRecord st.subscriptions pid }, pid)

/-! ### The batch update loop's subscription-record update
(`update-feeds.js`, `main`, lines 184-196) -/

/-- Outcome of `updateFeed` for one subscription: any caught error (failed
fetch, bad status, later exception) yields `{updated:false, error}` with no
`totalEpisodes` field; success reports `totalEpisodes: episodes.length`. -/
inductive FeedOutcome where
  | fetchFail (err : String)
  | fetchOk (fetched : List Item)
  deriving DecidableEq

/-- The `totalEpisodes` field of `updateFeed`'s result (`undefined` on
failure, modelled as `none`). -/
def totalEpisodesOf (o : FeedOutcome) : Option Nat :=
  match o with
  | .fetchFail _ => none
  | .fetchOk fetched => some fetched.length

/-- `subscriptions[id].lastUpdated = now;
if (results[id].totalEpisodes) subscriptions[id].episodeCount = ...`
(lines 189-192): `lastUpdated` is set unconditionally, `episodeCount` only
when `totalEpisodes` is defined and nonzero (`0` is falsy). -/
def updateSubRecord (sub : Subscription) (now : String)
    (totalEpisodes : Option Nat) : Subscription :=
  { sub with
    lastUpdated := now,
    episodeCount :=
      match totalEpisodes with
      | some n => if n ≠ 0 then n else sub.episodeCount
      | none => sub.episodeCount }

/-! ### Handler write traces, for the one-result-record-per-request contract

Each worker `main` is modelled as the ordered list of durable-store writes it
performs, as a function of its inputs and collaborator outcomes.  A
`Write.result` is a write under `data/requests/<requestId>.json`; the other
constructors are the remaining files of the data layout. -/

/-- The shape shared by every record written to the result store:
`success`, `requestId`, `timestamp` always; `error` on failure
(action-specific payload fields elided). -/
structure ResultRecord where
  success : Bool
  requestId : String
  timestamp : String
  error : Option String
  deriving DecidableEq

/-- One durable write performed by a worker run. -/
inductive Write where
  | result (requestId : String) (r : ResultRecord)
  | subscriptionsFile
  | feedFile (podcastId : String)
  | episodeListFile (podcastId : String)
  | lastUpdateFile
  | searchCacheFile (queryHash : String)
  | lookupFile (itunesId : Nat)
  | downloadRecordFile (episodeId : String)
  deriving DecidableEq

/-- The result-store writes of a trace, keyed by requestId. -/
def resultWrites (t : List Write) : List (String × ResultRecord) :=
  t.filterMap (fun w =>
    match w with
    | .result rid r => some (rid, r)
    | _ => none)

/-- Outcome of a worker's collaborator pipeline: the parsed payload, a thrown
`Error` carrying a non-ok HTTP status, or any other thrown error (network
failure, JSON parse failure, ...) carrying its message. -/
inductive FetchOutcome (α : Type) where
  | ok (val : α)
  | httpError (status : Nat)
  | thrown (msg : String)
  deriving DecidableEq

/-- A search hit; only its iTunes id matters for the write trace. -/
structure SearchResult where
  itunesId : Nat
  deriving DecidableEq

/-- `hashQuery(query)` of the search worker:
md5 of `query.toLowerCase().trim()` truncated to 12 characters. -/
def hashQuery (md5hex : String → String) (q : String) : String :=
  String.mk ((md5hex (q.toLower.trim)).data.take 12)

/-- The lookup-cache writes of the search worker's success path: one write per
result with a truthy `itunesId` whose lookup file does not exist yet; a write
creates the file, so a duplicate id later in the same run is skipped. -/
def lookupWrites (lookupExists : Nat → Bool) :
    List SearchResult → List Nat → List Write
  | [], _ => []
  | r :: rs, written =>
    if r.itunesId ≠ 0 ∧ ¬ lookupExists r.itunesId ∧
        ¬ written.contains r.itunesId then
      Write.lookupFile r.itunesId ::
        lookupWrites lookupExists rs (r.itunesId :: written)
    else lookupWrites lookupExists rs written

/-- The write trace of the search worker's `main`: with no query it
`process.exit(1)`s before writing anything; otherwise the `try` writes the
query cache, the result record and the lookup files, and the `catch` writes
exactly the failure result record. -/
def searchMainWrites (md5hex : String → String) (lookupExists : Nat → Bool)
    (query rid now : String)
    (fetch : FetchOutcome (List SearchResult)) : List Write :=
  if query = "" then []
  else
    match fetch with
    | .ok results =>
      Write.searchCacheFile (hashQuery md5hex query) ::
      Write.result rid
        { success := true, requestId := rid, timestamp := now, error := none } ::
      lookupWrites lookupExists results []
    | .httpError status =>
      [Write.result rid
        { success := false, requestId := rid, timestamp := now,
          error := some ("Search failed: " ++ Nat.repr status) }]
    | .thrown msg =>
      [Write.result rid
        { success := false, requestId := rid, timestamp := now,
          error := some msg }]

/-- The write trace of `subscribe.js`'s `main`: the action string selects
`unsubscribe()` (which rewrites `subscriptions.json` and never throws here)
or `subscribe()` (which throws on a missing feed URL or failed fetch, caught
by `main`'s single catch); every path funnels into exactly one result-record
write. -/
def subscribeMainWrites (md5hex : String → String)
    (action pidEnv feedUrl rid now : String)
    (fetch : FetchOutcome (Channel × List Item)) : List Write :=
  let pid := jsOrS pidEnv (generatePodcastId md5hex feedUrl)
  if action = "unsubscribe" then
    [Write.subscriptionsFile,
     Write.result rid
       { success := true, requestId := rid, timestamp := now, error := none }]
  else if feedUrl = "" then
    [Write.result rid
      { success := false, requestId := rid, timestamp := now,
        error := some "No feed URL provided" }]
  else
    match fetch with
    | .ok _ =>
      [Write.subscriptionsFile, Write.feedFile pid, Write.episodeListFile pid,
       Write.result rid
         { success := true, requestId := rid, timestamp := now, error := none }]
    | .httpError status =>
      [Write.result rid
        { success := false, requestId := rid, timestamp := now,
          error := some ("Failed to fetch feed: " ++ Nat.repr status) }]
    | .thrown msg =>
      [Write.result rid
        { success := false, requestId := rid, timestamp := now,
          error := some msg }]

/-- Outcome of the download worker's download-and-upload pipeline. -/
inductive DownloadOutcome where
  | ok
  | err (msg : String)
  deriving DecidableEq

/-- The write trace of the download worker's `main`: with no episode URL it
exits before writing; `new URL(EPISODE_URL)` runs outside the `try`, so an
unparsable URL crashes the run with nothing written; otherwise success writes
the download record then the result record, and the catch writes exactly the
failure result record. -/
def downloadMainWrites (episodeUrl episodeId rid now : String)
    (urlParses : Bool) (dl : DownloadOutcome) : List Write :=
  if episodeUrl = "" then []
  else if ¬ urlParses then []
  else
    match dl with
    | .ok =>
      [Write.downloadRecordFile episodeId,
       Write.result rid
         { success := true, requestId := rid, timestamp := now, error := none }]
    | .err msg =>
      [Write.result rid
        { success := false, requestId := rid, timestamp := now,
          error := some msg }]

/-- The writes `updateFeed` performs for one subscription: nothing on a caught
failure; on success the episode list file only when there are new episodes,
then the feed snapshot file. -/
def updateFeedWrites (pid : String) (o : FeedOutcome)
    (prior : List Episode) : List Write :=
  match o with
  | .fetchFail _ => []
  | .fetchOk fetched =>
    (if (newItems fetched prior).length > 0 then [Write.episodeListFile pid]
     else []) ++ [Write.feedFile pid]

/-- The write trace of `update-feeds.js`'s `main`: nothing at all when
`subscriptions.json` is missing; otherwise the per-subscription writes in
order, then the rewritten `subscriptions.json` and the `last_update.json`
summary.  No write is keyed by a request id — the batch job has none. -/
def updateFeedsMainWrites (subsFileExists : Bool)
    (subs : List (String × FeedOutcome × List Episode)) : List Write :=
  if subsFileExists then
    (subs.map (fun s => updateFeedWrites s.1 s.2.1 s.2.2)).flatten ++
      [Write.subscriptionsFile, Write.lastUpdateFile]
  else []

/-- Does a fetched item carry a usable guid (present and nonempty)? -/
def itemHasGuid (it : Item) : Bool :=
  match it.guid with
  | some g => !(g == "")
  | none => false

/-- Does a stored episode carry a usable guid (present and nonempty)? -/
def episodeHasGuid (e : Episode) : Bool :=
  match e.guid with
  | some g => !(g == "")
  | none => false

/-- A lowercase hexadecimal digit, the alphabet of Node's md5 `digest('hex')`
output. -/
def isHexChar (c : Char) : Bool :=
  c.isDigit || ('a' ≤ c && c ≤ 'f')

/-- Well-formedness of one result-store write of a run with request id `rid`
and timestamp `now`: keyed by the request id, carrying `success`,
`requestId` and `timestamp`, and an error message when failed. -/
def resultWriteOk (rid now : String) (p : String × ResultRecord) : Bool :=
  p.1 == rid && p.2.requestId == rid && p.2.timestamp == now &&
    (p.2.success || p.2.error.isSome)

/-! ## Helper lemmas -/

theorem digitChar_val : ∀ k, k < 10 → (Nat.digitChar k).toNat - 48 = k := by
  decide

theorem toDigitsCore_acc (fuel : Nat) :
    ∀ (n : Nat) (ds : List Char),
      Nat.toDigitsCore 10 fuel n ds = Nat.toDigitsCore 10 fuel n [] ++ ds := by
  induction fuel with
  | zero => intro n ds; simp [Nat.toDigitsCore]
  | succ f ih =>
    intro n ds
    simp only [Nat.toDigitsCore]
    by_cases h : n / 10 = 0
    · simp [h]
    · simp only [h, if_false]
      rw [ih (n / 10) (Nat.digitChar (n % 10) :: ds),
        ih (n / 10) [Nat.digitChar (n % 10)], List.append_assoc]
      rfl

theorem decodeDec_snoc (xs : List Char) (c : Char) :
    decodeDec (xs ++ [c]) = 10 * decodeDec xs + (c.toNat - 48) := by
  simp [decodeDec, List.foldl_append]

theorem decodeDec_toDigitsCore (fuel : Nat) :
    ∀ n, n < fuel → decodeDec (Nat.toDigitsCore 10 fuel n []) = n := by
  induction fuel with
  | zero => intro n h; omega
  | succ f ih =>
    intro n h
    simp only [Nat.toDigitsCore]
    by_cases h10 : n / 10 = 0
    · have hn : n < 10 := by omega
      simp only [h10, if_true]
      have : decodeDec [Nat.digitChar (n % 10)]
          = (Nat.digitChar (n % 10)).toNat - 48 := by
        simp [decodeDec]
      rw [this, digitChar_val (n % 10) (Nat.mod_lt n (by norm_num))]
      omega
    · simp only [h10, if_false]
      rw [toDigitsCore_acc, decodeDec_snoc, ih (n / 10) (by omega),
        digitChar_val (n % 10) (Nat.mod_lt n (by omega))]
      omega

theorem decodeDec_toDigits (n : Nat) :
    decodeDec (Nat.toDigits 10 n) = n :=
  decodeDec_toDigitsCore (n + 1) n (Nat.lt_succ_self n)

theorem natRepr_data_inj {m n : Nat}
    (h : (Nat.repr m).data = (Nat.repr n).data) : m = n := by
  have hm : (Nat.repr m).data = Nat.toDigits 10 m := rfl
  have hn : (Nat.repr n).data = Nat.toDigits 10 n := rfl
  rw [hm, hn] at h
  rw [← decodeDec_toDigits m, ← decodeDec_toDigits n, h]

theorem prefixed_repr_inj (pre : String) :
    Function.Injective (fun i => pre ++ Nat.repr i) := by
  intro i j h
  have hd := congrArg String.data h
  simp only [String.data_append] at hd
  exact natRepr_data_inj (List.append_cancel_left hd)

theorem placeholderId_inj (now : String) :
    Function.Injective (placeholderId now) := by
  intro i j h
  apply prefixed_repr_inj ("new-" ++ now ++ "-")
  simpa [placeholderId, String.append_assoc] using h

theorem keysSubset_iff (a b : List String) :
    keysSubset a b = true ↔ ∀ k ∈ a, k ∈ b := by
  simp [keysSubset, List.all_eq_true]

/-! ### Association-list lemmas -/

theorem getRecord_append_right {α : Type} (m : List (String × α))
    (k : String) (v : α) (h : k ∉ m.map Prod.fst) :
    getRecord (m ++ [(k, v)]) k = some v := by
  induction m with
  | nil => simp [getRecord]
  | cons p t ih =>
    simp only [List.map_cons, List.mem_cons, not_or] at h
    have hp : ¬ p.1 = k := fun hc => h.1 hc.symm
    simp only [List.cons_append, getRecord, hp, if_false]
    exact ih h.2

theorem getRecord_replace {α : Type} (m : List (String × α))
    (k : String) (v : α) (h : k ∈ m.map Prod.fst) :
    getRecord (m.map (fun p => if p.1 = k then (k, v) else p)) k = some v := by
  induction m with
  | nil => simp at h
  | cons p t ih =>
    by_cases hp : p.1 = k
    · simp [getRecord, hp]
    · simp only [List.map_cons, hp, if_false, getRecord]
      apply ih
      simp only [List.map_cons, List.mem_cons] at h
      exact h.resolve_left (fun hc => hp hc.symm)

theorem getRecord_putRecord {α : Type} (m : List (String × α))
    (k : String) (v : α) : getRecord (putRecord m k v) k = some v := by
  unfold putRecord
  by_cases hc : (m.map Prod.fst).contains k
  · simp only [hc, if_true]
    apply getRecord_replace
    simpa using hc
  · simp only [hc, if_false]
    apply getRecord_append_right
    simpa using hc

theorem keys_putRecord_of_mem {α : Type} (m : List (String × α))
    (k : String) (v : α) (h : k ∈ m.map Prod.fst) :
    (putRecord m k v).map Prod.fst = m.map Prod.fst := by
  unfold putRecord
  have hc : (m.map Prod.fst).contains k = true := by simpa using h
  simp only [hc, if_true, List.map_map]
  apply List.map_congr_left
  intro p _
  by_cases hp : p.1 = k
  · simp [Function.comp, hp]
  · simp [Function.comp, hp]

theorem mem_keys_putRecord {α : Type} (m : List (String × α))
    (k : String) (v : α) : k ∈ (putRecord m k v).map Prod.fst := by
  unfold putRecord
  by_cases hc : (m.map Prod.fst).contains k
  · rw [if_pos hc, List.map_map]
    have h : k ∈ m.map Prod.fst := by simpa using hc
    obtain ⟨p, hp, hpk⟩ := List.mem_map.mp h
    apply List.mem_map.mpr
    refine ⟨p, hp, ?_⟩
    simp [Function.comp, hpk]
  · rw [if_neg hc]
    simp

theorem getRecord_delRecord_self {α : Type} (m : List (String × α))
    (k : String) : getRecord (delRecord m k) k = none := by
  induction m with
  | nil => rfl
  | cons p t ih =>
    by_cases hp : p.1 = k
    · have hb : (p.1 == k) = true := by simp [hp]
      simpa [delRecord, List.filter_cons, hb] using ih
    · have hb : (p.1 == k) = false := by simp [hp]
      simp only [delRecord, List.filter_cons, hb, Bool.not_false, if_true,
        getRecord, hp, if_false]
      exact ih

theorem getRecord_delRecord_other {α : Type} (m : List (String × α))
    (k k' : String) (h : k' ≠ k) :
    getRecord (delRecord m k) k' = getRecord m k' := by
  induction m with
  | nil => rfl
  | cons p t ih =>
    by_cases hp : p.1 = k
    · have hb : (p.1 == k) = true := by simp [hp]
      have hp' : ¬ p.1 = k' := by
        rw [hp]; exact fun hc => h hc.symm
      simp only [delRecord, List.filter_cons, hb, Bool.not_true, if_false,
        getRecord, hp', if_false]
      simpa [delRecord] using ih
    · have hb : (p.1 == k) = false := by simp [hp]
      by_cases hp' : p.1 = k'
      · have hbk : (k' == k) = false := by simp [h]
        simp only [delRecord, List.filter_cons, hb, Bool.not_false, if_true,
          getRecord, hp', if_true, hbk]
      · simp only [delRecord, List.filter_cons, hb, Bool.not_false, if_true,
          getRecord, hp', if_false]
        simpa [delRecord] using ih

/-! ### Merge-engine lemmas -/

theorem key_tagNewEpisode (pid now : String) (i : Nat) (it : Item) :
    (tagNewEpisode pid now i it).key = it.key := rfl

theorem key_retagOld (e : Episode) : (retagOld e).key = e.key := rfl

theorem tagNew_length (pid now : String) (its : List Item) :
    (tagNew pid now its).length = its.length := by
  simp [tagNew, List.enum_length]

theorem tagNew_keys (pid now : String) (its : List Item) :
    (tagNew pid now its).map Episode.key = its.map Item.key := by
  simp only [tagNew, List.map_map]
  have hf : (Episode.key ∘ fun p : Nat × Item => tagNewEpisode pid now p.1 p.2)
      = Item.key ∘ Prod.snd := rfl
  rw [hf, ← List.map_map, List.enum_map_snd]

theorem retagOld_keys (prior : List Episode) :
    (prior.map retagOld).map Episode.key = prior.map Episode.key := by
  rw [List.map_map]
  rfl

theorem mergedEpisodeList_keys (pid now : String) (fetched : List Item)
    (prior : List Episode) :
    (mergedEpisodeList pid now fetched prior).map Episode.key
      = (newItems fetched prior).map Item.key ++ prior.map Episode.key := by
  unfold mergedEpisodeList
  by_cases h : (newItems fetched prior).length > 0
  · simp only [h, if_true, List.map_append, tagNew_keys, retagOld_keys]
  · have hnil : newItems fetched prior = [] :=
      List.eq_nil_of_length_eq_zero (by omega)
    simp [h, hnil]

theorem mem_newItems (fetched : List Item) (prior : List Episode) (it : Item)
    (hf : it ∈ fetched) (hnk : it.key ∉ prior.map Episode.key) :
    it ∈ newItems fetched prior := by
  apply List.mem_filter.mpr
  refine ⟨hf, ?_⟩
  simp [existingKeys, hnk]

theorem newItems_subset (fetched : List Item) (prior : List Episode) :
    newItems fetched prior ⊆ fetched :=
  (List.filter_sublist fetched).subset

theorem mergedEpisodeList_length (pid now : String) (fetched : List Item)
    (prior : List Episode) :
    (mergedEpisodeList pid now fetched prior).length
      = prior.length + newCount fetched prior := by
  unfold mergedEpisodeList
  by_cases h : (newItems fetched prior).length > 0
  · simp only [h, if_true, List.length_append, tagNew_length, List.length_map,
      newCount]
    omega
  · have h0 : (newItems fetched prior).length = 0 := by omega
    simp [h, newCount, h0]

theorem eraseIsNew_retagOld (prior : List Episode) :
    (prior.map retagOld).map eraseIsNew = prior.map eraseIsNew := by
  rw [List.map_map]
  rfl

theorem mergedEpisodeList_drop (pid now : String) (fetched : List Item)
    (prior : List Episode) :
    ((mergedEpisodeList pid now fetched prior).drop
        (newCount fetched prior)).map eraseIsNew
      = prior.map eraseIsNew := by
  unfold mergedEpisodeList
  by_cases h : (newItems fetched prior).length > 0
  · simp only [h, if_true, newCount]
    rw [show (newItems fetched prior).length
        = (tagNew pid now (newItems fetched prior)).length from
        (tagNew_length pid now _).symm,
      List.drop_left, eraseIsNew_retagOld]
  · have h0 : (newItems fetched prior).length = 0 := by omega
    simp [h, newCount, h0]

/-! ### Poller lemmas -/

theorem pollGo_retry (store : Nat → ReadOutcome)
    (h : ∀ n, store n = ReadOutcome.notFound ∨ store n = ReadOutcome.netFailure) :
    ∀ fuel attempt, pollGo store fuel attempt = (PollResult.timeout, fuel) := by
  intro fuel
  induction fuel with
  | zero => intro attempt; rfl
  | succ f ih =>
    intro attempt
    cases h attempt with
    | inl hn => simp [pollGo, hn, ih (attempt + 1)]
    | inr hn => simp [pollGo, hn, ih (attempt + 1)]

theorem pollGo_httpError (store : Nat → ReadOutcome) (c : Nat)
    (fuel attempt : Nat) (h : store attempt = ReadOutcome.httpError c) :
    pollGo store (fuel + 1) attempt = (PollResult.httpError c, 1) := by
  simp [pollGo, h]

/-! ## Claim theorems -/

/-- C3: the claim says the poller, when the result record never appears,
times out after exactly `maxAttempts = 60` read attempts.  The code's own
comment says "Max 60 attempts", but the guard `attempt > 60` with the counter
starting at 0 performs the read at every counter value `0..60`: evaluating
the embedded loop on a store that always answers 404 shows it terminates with
the timeout outcome after exactly 61 read attempts (and, in particular,
never loops forever). -/
theorem pollForResults_never_present :
    pollForResults (fun _ => ReadOutcome.notFound) 0 = (PollResult.timeout, 61) := by
  decide

/-- C4 counterexample: the claim says every read outcome other than
"record present" and "not found" is retried at the same cadence as
"not found".  But on a store that always answers HTTP 500 the poller aborts
with an error after a single read, while on a store that always answers 404
(equally record-less) it polls 61 times to timeout — the two outcomes are
not treated identically. -/
theorem pollRetry_httpError_aborts :
    pollForResults (fun _ => ReadOutcome.httpError 500) 0
      = (PollResult.httpError 500, 1)
    ∧ pollForResults (fun _ => ReadOutcome.notFound) 0
      = (PollResult.timeout, 61) := by
  decide

/-- C4 amended: only a process-level transport failure (an `IOException`,
`netFailure` here) is retried identically to "not found" — any mix of the
two ends in timeout after the full 61 reads; a non-404 HTTP error status
instead aborts the poll immediately with an error after that single read.
Record presence, attempt exhaustion, and a non-404 HTTP error status are the
three ways the loop ends. -/
theorem pollRetry_amended :
    (∀ store : Nat → ReadOutcome,
      (∀ n, store n = ReadOutcome.notFound ∨ store n = ReadOutcome.netFailure) →
      pollForResults store 0 = (PollResult.timeout, 61))
    ∧ (∀ (store : Nat → ReadOutcome) (c : Nat),
      store 0 = ReadOutcome.httpError c →
      pollForResults store 0 = (PollResult.httpError c, 1)) := by
  constructor
  · intro store h
    exact pollGo_retry store h 61 0
  · intro store c h
    have h61 : (61 : Nat) - 0 = 60 + 1 := by norm_num
    rw [pollForResults, h61, pollGo_httpError store c 60 0 h]

/-- C4 amended, witness: a store that always reports a network failure is
retried to timeout; a store answering HTTP 500 aborts after one read. -/
theorem pollRetry_amended_witness :
    pollForResults (fun _ => ReadOutcome.netFailure) 0 = (PollResult.timeout, 61)
    ∧ pollForResults (fun _ => ReadOutcome.httpError 500) 0
      = (PollResult.httpError 500, 1) :=
  ⟨pollRetry_amended.1 (fun _ => ReadOutcome.netFailure) (fun _ => Or.inr rfl),
   pollRetry_amended.2 (fun _ => ReadOutcome.httpError 500) 500 rfl⟩

/-- C10: in the batch update loop, `lastUpdated` is advanced to the current
time for every processed subscription, fetch failure included, while
`episodeCount` is overwritten with the fresh feed's total item count exactly
when the fetch succeeded with a nonzero count — a failed fetch
(`totalEpisodes` absent) or a zero-item feed (`0` is falsy) leaves
`episodeCount` at its prior value. -/
theorem updateSubRecord_fields (sub : Subscription) (now : String)
    (o : FeedOutcome) :
    (updateSubRecord sub now (totalEpisodesOf o)).lastUpdated = now
    ∧ (updateSubRecord sub now (totalEpisodesOf o)).episodeCount =
      (match o with
       | FeedOutcome.fetchFail _ => sub.episodeCount
       | FeedOutcome.fetchOk fetched =>
         if fetched.length ≠ 0 then fetched.length else sub.episodeCount) := by
  cases o <;> simp [updateSubRecord, totalEpisodesOf]

/-- C9: `unsubscribe()` removes exactly the targeted Subscription record:
the feed snapshots and episode lists (for every podcast) are untouched, the
targeted key is gone from the registry, and every other registry key maps to
its previous record. -/
theorem unsubscribe_frame (md5hex : String → String)
    (pidEnv feedUrl k : String) (st : DataState)
    (hk : k ≠ (unsubscribeRun md5hex pidEnv feedUrl st).2) :
    (unsubscribeRun md5hex pidEnv feedUrl st).1.feeds = st.feeds
    ∧ (unsubscribeRun md5hex pidEnv feedUrl st).1.episodes = st.episodes
    ∧ getRecord (unsubscribeRun md5hex pidEnv feedUrl st).1.subscriptions
        (unsubscribeRun md5hex pidEnv feedUrl st).2 = none
    ∧ getRecord (unsubscribeRun md5hex pidEnv feedUrl st).1.subscriptions k
        = getRecord st.subscriptions k :=
  ⟨rfl, rfl, getRecord_delRecord_self _ _,
    getRecord_delRecord_other _ _ _ hk⟩

/-- C9 witness: unsubscribing `p1` from a two-podcast state removes only the
`p1` Subscription and leaves the other stores and the `p2` record intact. -/
theorem unsubscribe_frame_witness :
    (unsubscribeRun (fun _ => "h") "p1" ""
        ⟨[("p1", ⟨"p1", "t", "a", "f", "i", "d", 0, "l", "s"⟩),
          ("p2", ⟨"p2", "t", "a", "f", "i", "d", 0, "l", "s"⟩)], [], []⟩).1.feeds
      = (⟨[("p1", ⟨"p1", "t", "a", "f", "i", "d", 0, "l", "s"⟩),
          ("p2", ⟨"p2", "t", "a", "f", "i", "d", 0, "l", "s"⟩)], [], []⟩ :
            DataState).feeds
    ∧ (unsubscribeRun (fun _ => "h") "p1" ""
        ⟨[("p1", ⟨"p1", "t", "a", "f", "i", "d", 0, "l", "s"⟩),
          ("p2", ⟨"p2", "t", "a", "f", "i", "d", 0, "l", "s"⟩)], [], []⟩).1.episodes
      = (⟨[("p1", ⟨"p1", "t", "a", "f", "i", "d", 0, "l", "s"⟩),
          ("p2", ⟨"p2", "t", "a", "f", "i", "d", 0, "l", "s"⟩)], [], []⟩ :
            DataState).episodes
    ∧ getRecord (unsubscribeRun (fun _ => "h") "p1" ""
        ⟨[("p1", ⟨"p1", "t", "a", "f", "i", "d", 0, "l", "s"⟩),
          ("p2", ⟨"p2", "t", "a", "f", "i", "d", 0, "l", "s"⟩)], [], []⟩).1.subscriptions
        (unsubscribeRun (fun _ => "h") "p1" ""
          ⟨[("p1", ⟨"p1", "t", "a", "f", "i", "d", 0, "l", "s"⟩),
            ("p2", ⟨"p2", "t", "a", "f", "i", "d", 0, "l", "s"⟩)], [], []⟩).2 = none
    ∧ getRecord (unsubscribeRun (fun _ => "h") "p1" ""
        ⟨[("p1", ⟨"p1", "t", "a", "f", "i", "d", 0, "l", "s"⟩),
          ("p2", ⟨"p2", "t", "a", "f", "i", "d", 0, "l", "s"⟩)], [], []⟩).1.subscriptions "p2"
      = getRecord [("p1", ⟨"p1", "t", "a", "f", "i", "d", 0, "l", "s"⟩),
          ("p2", ⟨"p2", "t", "a", "f", "i", "d", 0, "l", "s"⟩)] "p2" :=
  unsubscribe_frame (fun _ => "h") "p1" "" "p2"
    ⟨[("p1", ⟨"p1", "t", "a", "f", "i", "d", 0, "l", "s"⟩),
      ("p2", ⟨"p2", "t", "a", "f", "i", "d", 0, "l", "s"⟩)], [], []⟩ (by decide)

/-- C5: when every fetched item's identity is already known (in particular
when the fetch returns zero items), the sync finds nothing new and the
stored episode list is left exactly as it was — re-running a sync against an
unchanged remote feed is idempotent and is not an error. -/
theorem sync_idempotent (pid now : String) (fetched : List Item)
    (prior : List Episode)
    (h : keysSubset (fetched.map Item.key) (prior.map Episode.key) = true) :
    newCount fetched prior = 0
    ∧ mergedEpisodeList pid now fetched prior = prior := by
  have hnil : newItems fetched prior = [] := by
    rw [newItems, List.filter_eq_nil_iff]
    intro it hit
    have hk : it.key ∈ prior.map Episode.key :=
      (keysSubset_iff _ _).mp h it.key (List.mem_map.mpr ⟨it, hit, rfl⟩)
    simp [existingKeys, hk]
  refine ⟨by simp [newCount, hnil], ?_⟩
  simp [mergedEpisodeList, hnil]

/-- C5 witness: re-syncing a feed whose single item is already recorded
(and, since the subset condition is trivially satisfied, an empty fetch)
leaves the list unchanged with a zero new-count. -/
theorem sync_idempotent_witness :
    newCount [⟨some "g1", "u1", "A"⟩]
        [⟨some "g1", "u1", "A", "g1", "p", some true⟩] = 0
    ∧ mergedEpisodeList "p" "t" [⟨some "g1", "u1", "A"⟩]
        [⟨some "g1", "u1", "A", "g1", "p", some true⟩]
      = [⟨some "g1", "u1", "A", "g1", "p", some true⟩] :=
  sync_idempotent "p" "t" [⟨some "g1", "u1", "A"⟩]
    [⟨some "g1", "u1", "A", "g1", "p", some true⟩] (by decide)

/-- C1: the merged episode list is the new items (those whose identity key is
not in the prior list's identity set), in source order, prepended to the
prior list — re-emitted with only the transient `isNew` annotation
recomputed.  Consequently its identity sequence decomposes as new-then-prior,
its identity set is the union of the prior and fetched identity sets, its
length is the prior length plus the new-item count, and every identity of
the prior list is still present. -/
theorem mergedEpisodeList_spec (pid now : String) (fetched : List Item)
    (prior : List Episode) :
    (mergedEpisodeList pid now fetched prior).map Episode.key
      = (newItems fetched prior).map Item.key ++ prior.map Episode.key
    ∧ sameKeySet ((mergedEpisodeList pid now fetched prior).map Episode.key)
        (prior.map Episode.key ++ fetched.map Item.key) = true
    ∧ (mergedEpisodeList pid now fetched prior).length
        = prior.length + newCount fetched prior
    ∧ keysSubset (prior.map Episode.key)
        ((mergedEpisodeList pid now fetched prior).map Episode.key) = true
    ∧ ((mergedEpisodeList pid now fetched prior).drop
          (newCount fetched prior)).map eraseIsNew = prior.map eraseIsNew := by
  refine ⟨mergedEpisodeList_keys pid now fetched prior, ?_, ?_, ?_, ?_⟩
  · rw [sameKeySet, Bool.and_eq_true]
    constructor
    · rw [keysSubset_iff]
      intro k hk
      rw [mergedEpisodeList_keys] at hk
      rcases List.mem_append.mp hk with hnew | hold
      · obtain ⟨it, hit, rfl⟩ := List.mem_map.mp hnew
        exact List.mem_append.mpr (Or.inr
          (List.mem_map.mpr ⟨it, newItems_subset fetched prior hit, rfl⟩))
      · exact List.mem_append.mpr (Or.inl hold)
    · rw [keysSubset_iff]
      intro k hk
      rw [mergedEpisodeList_keys]
      rcases List.mem_append.mp hk with hold | hfetched
      · exact List.mem_append.mpr (Or.inr hold)
      · by_cases hp : k ∈ prior.map Episode.key
        · exact List.mem_append.mpr (Or.inr hp)
        · obtain ⟨it, hit, rfl⟩ := List.mem_map.mp hfetched
          exact List.mem_append.mpr (Or.inl
            (List.mem_map.mpr ⟨it, mem_newItems fetched prior it hit hp, rfl⟩))
  · exact mergedEpisodeList_length pid now fetched prior
  · rw [keysSubset_iff]
    intro k hk
    rw [mergedEpisodeList_keys]
    exact List.mem_append.mpr (Or.inr hk)
  · exact mergedEpisodeList_drop pid now fetched prior

/-- Counting new identities is unaffected by dedup against the prior list
when the identity is not already known. -/
theorem count_newItems (prior : List Episode) (k : String)
    (h : k ∉ prior.map Episode.key) :
    ∀ fetched : List Item,
      ((newItems fetched prior).map Item.key).count k
        = (fetched.map Item.key).count k := by
  intro fetched
  induction fetched with
  | nil => rfl
  | cons it its ih =>
    by_cases hit : ((existingKeys prior).contains it.key) = true
    · have hmem : it.key ∈ prior.map Episode.key := by
        simpa [existingKeys] using hit
      have hne : (it.key == k) = false := by
        simp only [beq_eq_false_iff_ne, ne_eq]
        intro hc
        exact h (hc ▸ hmem)
      rw [newItems, List.filter_cons]
      simp only [hit, Bool.not_true, Bool.false_eq_true, if_false]
      rw [List.map_cons, List.count_cons, hne]
      simp only [Bool.false_eq_true, if_false, Nat.add_zero]
      simpa [newItems] using ih
    · have hfalse : ((existingKeys prior).contains it.key) = false := by
        simpa using hit
      rw [newItems, List.filter_cons]
      simp only [hfalse, Bool.not_false, if_true]
      rw [List.map_cons, List.map_cons, List.count_cons, List.count_cons]
      have ih' := ih
      rw [newItems] at ih'
      rw [ih']

/-- C8 counterexample: the claim says duplicate identities within a single
fetch are counted once with the last occurrence winning.  Fetching two items
that share the guid `g` into an empty prior list yields `newCount = 2`, and
the merged list keeps both occurrences (the first one's content included)
— the identity `g` occurs twice. -/
theorem duplicate_guid_counted_twice :
    newCount [⟨some "g", "u1", "A"⟩, ⟨some "g", "u2", "B"⟩] [] = 2
    ∧ (mergedEpisodeList "p" "t"
        [⟨some "g", "u1", "A"⟩, ⟨some "g", "u2", "B"⟩] []).map Episode.title
      = ["A", "B"]
    ∧ ((mergedEpisodeList "p" "t"
        [⟨some "g", "u1", "A"⟩, ⟨some "g", "u2", "B"⟩] []).map Episode.key).count "g"
      = 2 := by
  decide

/-- C8 amended: deduplication happens only against the prior list.  Every
fetched occurrence of an identity that is not already recorded is kept and
counted — an identity occurring twice in one fetch appears exactly as often
in the merged list as in the fetch, in source order. -/
theorem mergedEpisodeList_count (pid now k : String) (fetched : List Item)
    (prior : List Episode) (h : k ∉ prior.map Episode.key) :
    ((mergedEpisodeList pid now fetched prior).map Episode.key).count k
      = (fetched.map Item.key).count k := by
  rw [mergedEpisodeList_keys, List.count_append,
    List.count_eq_zero.mpr h, Nat.add_zero]
  exact count_newItems prior k h fetched

/-- C8 amended, witness: with the guid `g` unknown to the (empty) prior list,
both fetched occurrences of `g` are present in the merged identity
sequence. -/
theorem mergedEpisodeList_count_witness :
    ((mergedEpisodeList "p" "t"
        [⟨some "g", "u1", "A"⟩, ⟨some "g", "u2", "B"⟩] []).map Episode.key).count "g"
      = ((([⟨some "g", "u1", "A"⟩, ⟨some "g", "u2", "B"⟩] :
            List Item)).map Item.key).count "g" :=
  mergedEpisodeList_count "p" "t" "g"
    [⟨some "g", "u1", "A"⟩, ⟨some "g", "u2", "B"⟩] [] (by decide)

/-! ### Tagging lemmas -/

theorem itemHasGuid_false_jsOr (it : Item) (b : String)
    (h : itemHasGuid it = false) : jsOr it.guid b = b := by
  unfold itemHasGuid at h
  cases hg : it.guid with
  | none => simp [jsOr]
  | some g =>
    rw [hg] at h
    have hge : g = "" := by simpa using h
    simp [jsOr, hge]

theorem nodup_enumFilter_map {α : Type} (l : List α) (p : Nat × α → Bool)
    (g : Nat → String) (hg : Function.Injective g) :
    ((l.enum.filter p).map (fun q => g q.1)).Nodup := by
  have h1 : (l.enum.filter p).map (fun q => g q.1)
      = ((l.enum.filter p).map Prod.fst).map g := by
    rw [List.map_map]
    rfl
  rw [h1]
  apply List.Nodup.map hg
  have hsub : ((l.enum.filter p).map Prod.fst).Sublist (l.enum.map Prod.fst) :=
    (List.filter_sublist _).map _
  rw [List.enum_map_fst] at hsub
  exact List.Nodup.sublist hsub (List.nodup_range _)

theorem tagNew_filter_ids (pid now : String) (its : List Item) :
    ((tagNew pid now its).filter (fun e => !(episodeHasGuid e))).map Episode.id
      = (its.enum.filter (fun p => !(itemHasGuid p.2))).map
          (fun p => placeholderId now p.1) := by
  unfold tagNew
  rw [List.filter_map]
  have hp : ((fun e => !(episodeHasGuid e)) ∘
        fun p : Nat × Item => tagNewEpisode pid now p.1 p.2)
      = fun p : Nat × Item => !(itemHasGuid p.2) := rfl
  rw [hp, List.map_map]
  apply List.map_congr_left
  intro q hq
  have hg : itemHasGuid q.2 = false := by
    have hmem := (List.mem_filter.mp hq).2
    simpa using hmem
  show (tagNewEpisode pid now q.1 q.2).id = placeholderId now q.1
  unfold tagNewEpisode
  exact itemHasGuid_false_jsOr q.2 _ hg

theorem subscribeEpisodes_filter_ids (pid : String) (fetched : List Item) :
    ((subscribeEpisodes pid fetched).filter
        (fun e => !(episodeHasGuid e))).map Episode.id
      = (fetched.enum.filter (fun p => !(itemHasGuid p.2))).map
          (fun p => "ep-" ++ Nat.repr p.1) := by
  unfold subscribeEpisodes
  rw [List.filter_map]
  have hp : ((fun e => !(episodeHasGuid e)) ∘
        fun p : Nat × Item =>
          ({ guid := p.2.guid, url := p.2.url, title := p.2.title,
             id := jsOr p.2.guid ("ep-" ++ Nat.repr p.1),
             podcastId := pid, isNew := none } : Episode))
      = fun p : Nat × Item => !(itemHasGuid p.2) := rfl
  rw [hp, List.map_map]
  apply List.map_congr_left
  intro q hq
  have hg : itemHasGuid q.2 = false := by
    have hmem := (List.mem_filter.mp hq).2
    simpa using hmem
  exact itemHasGuid_false_jsOr q.2 _ hg

/-- C7 counterexample: the claim says that in the first sync by the subscribe
handler every fetched item is tagged `isNew = true`.  The episode list
written by `subscribe()` carries no `isNew` field at all: its one episode's
`isNew` is absent, not `true`. -/
theorem subscribe_episodes_not_tagged :
    (subscribeEpisodes "p" [⟨some "g1", "u1", "E1"⟩]).map Episode.isNew = [none]
    ∧ (subscribeEpisodes "p" [⟨some "g1", "u1", "E1"⟩]).map Episode.isNew
      ≠ [some true] := by
  decide

/-- C7 amended: in the refresh sync, when at least one fetched item is new,
each new item receives the stable id `guid` (when present and nonempty) or a
synthesized `new-<now>-<i>` placeholder unique within the run, and is tagged
`isNew = true`, while every re-emitted prior episode is tagged
`isNew = false`; the first sync by the subscribe handler assigns stable ids
the same way (placeholder `ep-<index>`, also unique within the run) but
writes no `isNew` field at all. -/
theorem sync_tagging (pid now : String) (fetched : List Item)
    (prior : List Episode) (h : 0 < newCount fetched prior) :
    mergedEpisodeList pid now fetched prior
      = tagNew pid now (newItems fetched prior) ++ prior.map retagOld
    ∧ (tagNew pid now (newItems fetched prior)).map Episode.isNew
      = List.replicate (newCount fetched prior) (some true)
    ∧ (prior.map retagOld).map Episode.isNew
      = List.replicate prior.length (some false)
    ∧ (tagNew pid now (newItems fetched prior)).map Episode.id
      = (newItems fetched prior).enum.map
          (fun p => jsOr p.2.guid (placeholderId now p.1))
    ∧ (((tagNew pid now (newItems fetched prior)).filter
          (fun e => !(episodeHasGuid e))).map Episode.id).Nodup
    ∧ (subscribeEpisodes pid fetched).map Episode.isNew
      = List.replicate fetched.length none
    ∧ (subscribeEpisodes pid fetched).map Episode.id
      = fetched.enum.map (fun p => jsOr p.2.guid ("ep-" ++ Nat.repr p.1))
    ∧ (((subscribeEpisodes pid fetched).filter
          (fun e => !(episodeHasGuid e))).map Episode.id).Nodup := by
  refine ⟨?_, ?_, ?_, ?_, ?_, ?_, ?_, ?_⟩
  · simp only [mergedEpisodeList]
    have h' : (newItems fetched prior).length > 0 := h
    rw [if_pos h']
  · rw [tagNew, List.map_map]
    have hc : (Episode.isNew ∘ fun p : Nat × Item => tagNewEpisode pid now p.1 p.2)
        = Function.const (Nat × Item) (some true) := rfl
    rw [hc, List.map_const, List.enum_length]
    rfl
  · rw [List.map_map]
    have hc : (Episode.isNew ∘ retagOld) = Function.const Episode (some false) := rfl
    rw [hc, List.map_const]
  · rw [tagNew, List.map_map]
    rfl
  · rw [tagNew_filter_ids]
    exact nodup_enumFilter_map _ _ _ (placeholderId_inj now)
  · rw [subscribeEpisodes, List.map_map]
    have hc : (Episode.isNew ∘ fun p : Nat × Item =>
          ({ guid := p.2.guid, url := p.2.url, title := p.2.title,
             id := jsOr p.2.guid ("ep-" ++ Nat.repr p.1),
             podcastId := pid, isNew := none } : Episode))
        = Function.const (Nat × Item) none := rfl
    rw [hc, List.map_const, List.enum_length]
  · rw [subscribeEpisodes, List.map_map]
    rfl
  · rw [subscribeEpisodes_filter_ids]
    exact nodup_enumFilter_map _ _ _ (prefixed_repr_inj "ep-")

/-- C7 amended, witness: a refresh of an empty prior list with one guid-less
and one guid-carrying item, evaluated concretely. -/
theorem sync_tagging_witness :
    mergedEpisodeList "p" "5" [⟨none, "u1", "A"⟩, ⟨some "g", "u2", "B"⟩] []
      = tagNew "p" "5" (newItems [⟨none, "u1", "A"⟩, ⟨some "g", "u2", "B"⟩] [])
          ++ ([] : List Episode).map retagOld
    ∧ (tagNew "p" "5"
          (newItems [⟨none, "u1", "A"⟩, ⟨some "g", "u2", "B"⟩] [])).map Episode.isNew
      = List.replicate (newCount [⟨none, "u1", "A"⟩, ⟨some "g", "u2", "B"⟩] [])
          (some true)
    ∧ (([] : List Episode).map retagOld).map Episode.isNew
      = List.replicate ([] : List Episode).length (some false)
    ∧ (tagNew "p" "5"
          (newItems [⟨none, "u1", "A"⟩, ⟨some "g", "u2", "B"⟩] [])).map Episode.id
      = (newItems [⟨none, "u1", "A"⟩, ⟨some "g", "u2", "B"⟩] []).enum.map
          (fun p => jsOr p.2.guid (placeholderId "5" p.1))
    ∧ (((tagNew "p" "5"
          (newItems [⟨none, "u1", "A"⟩, ⟨some "g", "u2", "B"⟩] [])).filter
          (fun e => !(episodeHasGuid e))).map Episode.id).Nodup
    ∧ (subscribeEpisodes "p" [⟨none, "u1", "A"⟩, ⟨some "g", "u2", "B"⟩]).map
          Episode.isNew
      = List.replicate
          ([⟨none, "u1", "A"⟩, ⟨some "g", "u2", "B"⟩] : List Item).length none
    ∧ (subscribeEpisodes "p" [⟨none, "u1", "A"⟩, ⟨some "g", "u2", "B"⟩]).map
          Episode.id
      = ([⟨none, "u1", "A"⟩, ⟨some "g", "u2", "B"⟩] : List Item).enum.map
          (fun p => jsOr p.2.guid ("ep-" ++ Nat.repr p.1))
    ∧ (((subscribeEpisodes "p" [⟨none, "u1", "A"⟩, ⟨some "g", "u2", "B"⟩]).filter
          (fun e => !(episodeHasGuid e))).map Episode.id).Nodup :=
  sync_tagging "p" "5" [⟨none, "u1", "A"⟩, ⟨some "g", "u2", "B"⟩] [] (by decide)

/-! ### Subscribe-registry lemmas -/

theorem jsOrS_of_ne (a b : String) (h : a ≠ "") : jsOrS a b = a := by
  simp [jsOrS, h]

theorem subscribedAtOf_ne (prior : Option Subscription) (now : String)
    (h : now ≠ "") : subscribedAtOf prior now ≠ "" := by
  cases prior with
  | none => exact h
  | some p =>
    by_cases hp : p.subscribedAt = ""
    · simpa [subscribedAtOf, jsOrS, hp] using h
    · simp [subscribedAtOf, jsOrS, hp]

theorem subscribeRegistry_eq (md5hex : String → String)
    (feedUrl t now : String) (ch : Channel) (eps : List Item)
    (subs : List (String × Subscription)) :
    subscribeRegistry md5hex "" feedUrl t ch eps now subs
      = (putRecord subs (generatePodcastId md5hex feedUrl)
          (buildSubscription (generatePodcastId md5hex feedUrl) t feedUrl ch
            eps now (getRecord subs (generatePodcastId md5hex feedUrl))),
         generatePodcastId md5hex feedUrl) := by
  simp [subscribeRegistry, jsOrS]

/-- C6: without an explicit podcast id, subscribing twice to the same feed
URL derives the same id both times — the md5 hex digest of the URL truncated
to its first 12 (hex) characters — and the second run updates the existing
Subscription record in place: the registry's key set is unchanged,
`subscribedAt` keeps its value from the first run (first-write-wins), and
title, `lastUpdated` and `episodeCount` come from the second run
(last-write-wins). -/
theorem subscribe_same_id (md5hex : String → String)
    (feedUrl t1 t2 now1 now2 : String) (ch1 ch2 : Channel)
    (eps1 eps2 : List Item) (subs0 subs1 : List (String × Subscription))
    (pid1 : String)
    (h1 : subscribeRegistry md5hex "" feedUrl t1 ch1 eps1 now1 subs0
      = (subs1, pid1))
    (hnow : now1 ≠ "")
    (hlen : 12 ≤ (md5hex feedUrl).data.length)
    (hhex : (md5hex feedUrl).data.all isHexChar = true) :
    (subscribeRegistry md5hex "" feedUrl t2 ch2 eps2 now2 subs1).2 = pid1
    ∧ pid1.data.length = 12
    ∧ pid1.data.all isHexChar = true
    ∧ (subscribeRegistry md5hex "" feedUrl t2 ch2 eps2 now2 subs1).1.map
        Prod.fst = subs1.map Prod.fst
    ∧ (getRecord (subscribeRegistry md5hex "" feedUrl t2 ch2 eps2 now2
          subs1).1 pid1).map Subscription.subscribedAt
      = (getRecord subs1 pid1).map Subscription.subscribedAt
    ∧ (getRecord (subscribeRegistry md5hex "" feedUrl t2 ch2 eps2 now2
          subs1).1 pid1).map Subscription.title
      = some (jsOrS t2 (jsOr ch2.title "Unknown"))
    ∧ (getRecord (subscribeRegistry md5hex "" feedUrl t2 ch2 eps2 now2
          subs1).1 pid1).map Subscription.lastUpdated = some now2
    ∧ (getRecord (subscribeRegistry md5hex "" feedUrl t2 ch2 eps2 now2
          subs1).1 pid1).map Subscription.episodeCount
      = some eps2.length := by
  have hpair := (subscribeRegistry_eq md5hex feedUrl t1 now1 ch1 eps1
    subs0).symm.trans h1
  have hpid : generatePodcastId md5hex feedUrl = pid1 :=
    congrArg Prod.snd hpair
  have hsubs : putRecord subs0 (generatePodcastId md5hex feedUrl)
      (buildSubscription (generatePodcastId md5hex feedUrl) t1 feedUrl ch1
        eps1 now1 (getRecord subs0 (generatePodcastId md5hex feedUrl)))
      = subs1 := congrArg Prod.fst hpair
  rw [← hpid] at *
  rw [subscribeRegistry_eq md5hex feedUrl t2 now2 ch2 eps2 subs1]
  have hget1 : getRecord subs1 (generatePodcastId md5hex feedUrl)
      = some (buildSubscription (generatePodcastId md5hex feedUrl) t1 feedUrl
          ch1 eps1 now1 (getRecord subs0 (generatePodcastId md5hex feedUrl))) := by
    rw [← hsubs]
    exact getRecord_putRecord _ _ _
  have hget2 : getRecord (putRecord subs1 (generatePodcastId md5hex feedUrl)
      (buildSubscription (generatePodcastId md5hex feedUrl) t2 feedUrl ch2
        eps2 now2 (getRecord subs1 (generatePodcastId md5hex feedUrl))))
      (generatePodcastId md5hex feedUrl)
      = some (buildSubscription (generatePodcastId md5hex feedUrl) t2 feedUrl
          ch2 eps2 now2 (getRecord subs1 (generatePodcastId md5hex feedUrl))) :=
    getRecord_putRecord _ _ _
  refine ⟨rfl, ?_, ?_, ?_, ?_, ?_, ?_, ?_⟩
  · show ((md5hex feedUrl).data.take 12).length = 12
    rw [List.length_take]
    exact min_eq_left hlen
  · show ((md5hex feedUrl).data.take 12).all isHexChar = true
    rw [List.all_eq_true] at hhex ⊢
    intro c hc
    exact hhex c (List.take_subset _ _ hc)
  · apply keys_putRecord_of_mem
    rw [← hsubs]
    exact mem_keys_putRecord _ _ _
  · rw [hget2, hget1]
    exact congrArg some (jsOrS_of_ne _ now2
      (subscribedAtOf_ne (getRecord subs0 (generatePodcastId md5hex feedUrl))
        now1 hnow))
  · rw [hget2]
    rfl
  · rw [hget2]
    rfl
  · rw [hget2]
    rfl

/-- C6 witness: two concrete subscribes to the feed URL `f` with no explicit
id, evaluated with a fixed md5 collaborator. -/
theorem subscribe_same_id_witness :
    (subscribeRegistry (fun _ => "0123456789abcdef0123456789abcdef") "" "f"
        "T2" ⟨none, none, none, none⟩ [] "n2"
        [("0123456789ab",
          ⟨"0123456789ab", "Unknown", "", "f", "", "", 0, "n1", "n1"⟩)]).2
      = "0123456789ab"
    ∧ ("0123456789ab" : String).data.length = 12
    ∧ ("0123456789ab" : String).data.all isHexChar = true
    ∧ (subscribeRegistry (fun _ => "0123456789abcdef0123456789abcdef") "" "f"
        "T2" ⟨none, none, none, none⟩ [] "n2"
        [("0123456789ab",
          ⟨"0123456789ab", "Unknown", "", "f", "", "", 0, "n1", "n1"⟩)]).1.map
        Prod.fst
      = [("0123456789ab",
          (⟨"0123456789ab", "Unknown", "", "f", "", "", 0, "n1", "n1"⟩ :
            Subscription))].map Prod.fst
    ∧ (getRecord (subscribeRegistry
          (fun _ => "0123456789abcdef0123456789abcdef") "" "f" "T2"
          ⟨none, none, none, none⟩ [] "n2"
          [("0123456789ab",
            ⟨"0123456789ab", "Unknown", "", "f", "", "", 0, "n1", "n1"⟩)]).1
        "0123456789ab").map Subscription.subscribedAt
      = (getRecord
          [("0123456789ab",
            (⟨"0123456789ab", "Unknown", "", "f", "", "", 0, "n1", "n1"⟩ :
              Subscription))] "0123456789ab").map Subscription.subscribedAt
    ∧ (getRecord (subscribeRegistry
          (fun _ => "0123456789abcdef0123456789abcdef") "" "f" "T2"
          ⟨none, none, none, none⟩ [] "n2"
          [("0123456789ab",
            ⟨"0123456789ab", "Unknown", "", "f", "", "", 0, "n1", "n1"⟩)]).1
        "0123456789ab").map Subscription.title
      = some (jsOrS "T2" (jsOr none "Unknown"))
    ∧ (getRecord (subscribeRegistry
          (fun _ => "0123456789abcdef0123456789abcdef") "" "f" "T2"
          ⟨none, none, none, none⟩ [] "n2"
          [("0123456789ab",
            ⟨"0123456789ab", "Unknown", "", "f", "", "", 0, "n1", "n1"⟩)]).1
        "0123456789ab").map Subscription.lastUpdated = some "n2"
    ∧ (getRecord (subscribeRegistry
          (fun _ => "0123456789abcdef0123456789abcdef") "" "f" "T2"
          ⟨none, none, none, none⟩ [] "n2"
          [("0123456789ab",
            ⟨"0123456789ab", "Unknown", "", "f", "", "", 0, "n1", "n1"⟩)]).1
        "0123456789ab").map Subscription.episodeCount
      = some ([] : List Item).length :=
  subscribe_same_id (fun _ => "0123456789abcdef0123456789abcdef") "f" "" "T2"
    "n1" "n2" ⟨none, none, none, none⟩ ⟨none, none, none, none⟩ [] [] []
    [("0123456789ab",
      ⟨"0123456789ab", "Unknown", "", "f", "", "", 0, "n1", "n1"⟩)]
    "0123456789ab" (by decide) (by decide) (by decide) (by decide)

/-! ### Result-store write lemmas -/

theorem resultWrites_nil : resultWrites [] = [] := rfl

theorem resultWrites_cons (w : Write) (l : List Write) :
    resultWrites (w :: l)
      = (match w with
         | Write.result rid r => [(rid, r)]
         | _ => []) ++ resultWrites l := by
  cases w <;> simp [resultWrites, List.filterMap_cons]

theorem resultWrites_append (a b : List Write) :
    resultWrites (a ++ b) = resultWrites a ++ resultWrites b := by
  simp [resultWrites, List.filterMap_append]

theorem resultWrites_lookupWrites (ex : Nat → Bool) :
    ∀ (rs : List SearchResult) (written : List Nat),
      resultWrites (lookupWrites ex rs written) = [] := by
  intro rs
  induction rs with
  | nil => intro written; rfl
  | cons r t ih =>
    intro written
    rw [lookupWrites]
    by_cases hc : r.itunesId ≠ 0 ∧ ¬ ex r.itunesId
        ∧ ¬ written.contains r.itunesId
    · rw [if_pos hc, resultWrites_cons]
      exact ih (r.itunesId :: written)
    · rw [if_neg hc]
      exact ih written

theorem resultWrites_updateFeedWrites (pid : String) (o : FeedOutcome)
    (prior : List Episode) :
    resultWrites (updateFeedWrites pid o prior) = [] := by
  cases o with
  | fetchFail e => rfl
  | fetchOk fetched =>
    by_cases h : (newItems fetched prior).length > 0
    · simp [updateFeedWrites, h, resultWrites_cons, resultWrites_nil]
    · simp [updateFeedWrites, h, resultWrites_cons, resultWrites_nil]

theorem resultWrites_updateFeedsMain (b : Bool)
    (subs : List (String × FeedOutcome × List Episode)) :
    resultWrites (updateFeedsMainWrites b subs) = [] := by
  cases b with
  | false => rfl
  | true =>
    rw [updateFeedsMainWrites, if_pos rfl, resultWrites_append]
    have h1 : resultWrites
        ((subs.map fun s => updateFeedWrites s.1 s.2.1 s.2.2).flatten) = [] := by
      induction subs with
      | nil => rfl
      | cons s t ih =>
        rw [List.map_cons, List.flatten_cons, resultWrites_append,
          resultWrites_updateFeedWrites, List.nil_append]
        exact ih
    rw [h1]
    rfl

/-- C2 counterexample: the claim says every handler, update-feeds included,
writes exactly one ResultRecord keyed by the request's requestId on every
execution path.  A successful update-feeds batch run performs its writes but
none of them is a result-store write (the batch job has no request id), and
a search run invoked without a query exits without writing any record. -/
theorem updateFeeds_writes_no_result :
    resultWrites (updateFeedsMainWrites true
        [("p1", FeedOutcome.fetchOk [], [])]) = []
    ∧ updateFeedsMainWrites true [("p1", FeedOutcome.fetchOk [], [])] ≠ []
    ∧ resultWrites (searchMainWrites (fun _ => "") (fun _ => false) "" "r1"
        "t0" (FetchOutcome.ok [])) = [] := by
  decide

/-- C2 amended: the subscribe/unsubscribe worker writes exactly one
well-formed ResultRecord (keyed by the requestId, carrying success,
requestId and timestamp, and an error message on failure) on every path;
the search and download workers do the same on every path on which their
required input is present (a nonempty query; a nonempty, parsable episode
URL), and write none when it is absent; the update-feeds batch worker never
writes a requestId-keyed ResultRecord. -/
theorem handlers_result_writes :
    (∀ (md5hex : String → String) (action pidEnv feedUrl rid now : String)
        (fetch : FetchOutcome (Channel × List Item)),
      (resultWrites (subscribeMainWrites md5hex action pidEnv feedUrl rid now
          fetch)).length = 1
      ∧ (resultWrites (subscribeMainWrites md5hex action pidEnv feedUrl rid
          now fetch)).all (resultWriteOk rid now) = true)
    ∧ (∀ (md5hex : String → String) (lookupExists : Nat → Bool)
        (query rid now : String) (fetch : FetchOutcome (List SearchResult)),
      query ≠ "" →
      (resultWrites (searchMainWrites md5hex lookupExists query rid now
          fetch)).length = 1
      ∧ (resultWrites (searchMainWrites md5hex lookupExists query rid now
          fetch)).all (resultWriteOk rid now) = true)
    ∧ (∀ (md5hex : String → String) (lookupExists : Nat → Bool)
        (rid now : String) (fetch : FetchOutcome (List SearchResult)),
      resultWrites (searchMainWrites md5hex lookupExists "" rid now fetch)
        = [])
    ∧ (∀ (episodeUrl episodeId rid now : String) (dl : DownloadOutcome),
      episodeUrl ≠ "" →
      (resultWrites (downloadMainWrites episodeUrl episodeId rid now true
          dl)).length = 1
      ∧ (resultWrites (downloadMainWrites episodeUrl episodeId rid now true
          dl)).all (resultWriteOk rid now) = true)
    ∧ (∀ (episodeId rid now : String) (urlParses : Bool)
        (dl : DownloadOutcome),
      resultWrites (downloadMainWrites "" episodeId rid now urlParses dl)
        = [])
    ∧ (∀ (episodeUrl episodeId rid now : String) (dl : DownloadOutcome),
      resultWrites (downloadMainWrites episodeUrl episodeId rid now false dl)
        = [])
    ∧ (∀ (subsFileExists : Bool)
        (subs : List (String × FeedOutcome × List Episode)),
      resultWrites (updateFeedsMainWrites subsFileExists subs) = []) := by
  refine ⟨?_, ?_, ?_, ?_, ?_, ?_, ?_⟩
  · intro md5hex action pidEnv feedUrl rid now fetch
    by_cases ha : action = "unsubscribe"
    · constructor <;>
        simp [subscribeMainWrites, ha, resultWrites_cons, resultWrites_nil,
          resultWriteOk]
    · by_cases hf : feedUrl = ""
      · constructor <;>
          simp [subscribeMainWrites, ha, hf, resultWrites_cons,
            resultWrites_nil, resultWriteOk]
      · cases fetch <;> constructor <;>
          simp [subscribeMainWrites, ha, hf, resultWrites_cons,
            resultWrites_nil, resultWriteOk]
  · intro md5hex lookupExists query rid now fetch hq
    cases fetch <;> constructor <;>
      simp [searchMainWrites, hq, resultWrites_cons, resultWrites_nil,
        resultWrites_lookupWrites, resultWriteOk]
  · intro md5hex lookupExists rid now fetch
    simp [searchMainWrites, resultWrites_nil]
  · intro episodeUrl episodeId rid now dl hu
    cases dl <;> constructor <;>
      simp [downloadMainWrites, hu, resultWrites_cons, resultWrites_nil,
        resultWriteOk]
  · intro episodeId rid now urlParses dl
    simp [downloadMainWrites, resultWrites_nil]
  · intro episodeUrl episodeId rid now dl
    by_cases he : episodeUrl = "" <;>
      simp [downloadMainWrites, he, resultWrites_nil]
  · intro subsFileExists subs
    exact resultWrites_updateFeedsMain subsFileExists subs

/-- C2 amended, witness: one concrete run of each handler kind. -/
theorem handlers_result_writes_witness :
    (resultWrites (subscribeMainWrites (fun _ => "h") "subscribe" "" ""
        "r1" "t1" (FetchOutcome.thrown "boom"))).length = 1
    ∧ (resultWrites (searchMainWrites (fun _ => "h") (fun _ => false) "q"
        "r2" "t2" (FetchOutcome.ok []))).length = 1
    ∧ resultWrites (searchMainWrites (fun _ => "h") (fun _ => false) ""
        "r3" "t3" (FetchOutcome.ok [])) = []
    ∧ (resultWrites (downloadMainWrites "http" "e1" "r4" "t4" true
        DownloadOutcome.ok)).length = 1
    ∧ resultWrites (updateFeedsMainWrites true
        [("p1", FeedOutcome.fetchOk [], [])]) = [] :=
  ⟨(handlers_result_writes.1 (fun _ => "h") "subscribe" "" "" "r1" "t1"
      (FetchOutcome.thrown "boom")).1,
   (handlers_result_writes.2.1 (fun _ => "h") (fun _ => false) "q" "r2" "t2"
      (FetchOutcome.ok []) (by decide)).1,
   handlers_result_writes.2.2.1 (fun _ => "h") (fun _ => false) "r3" "t3"
      (FetchOutcome.ok []),
   (handlers_result_writes.2.2.2.1 "http" "e1" "r4" "t4" DownloadOutcome.ok
      (by decide)).1,
   handlers_result_writes.2.2.2.2.2.2 true
      [("p1", FeedOutcome.fetchOk [], [])]⟩
